import Mathlib

/-!
Verification of the govershop-be order / payment / ledger core.

This file gives a shallow embedding of the reconciliation core of the
govershop-be service: the order status writes (`internal/repository/order_repo.go`),
the balance ledger (`internal/repository/user_repo.go`), the Pakasir and
Digiflazz webhook handlers and the topup orchestration
(`internal/handler/webhook.go`), and the member purchase / admin topup
handlers (`internal/handler/member.go`).

Database tables are embedded as Lean lists, monetary `float64` values as `ℚ`
(all concrete values used here are exactly representable in both), SQL UPDATE
statements as list maps, and transactions as pure functions that either return
the committed state or an error with the state untouched.  External effects
that the handlers branch on (JSON parsing, the Digiflazz HTTP round-trip, a
failing INSERT) are passed in as explicit parameters, so every code path of
the Go source is a reachable branch of the Lean definition.
-/

namespace Govershop

/-- Order statuses, from `internal/model/order.go` (`OrderStatus` constants). -/
inductive OrderStatus
  | pending
  | waitingPayment
  | paid
  | processing
  | success
  | failed
  | expired
  | cancelled
  | refunded
deriving DecidableEq, Repr

/-- The statuses the spec calls terminal: success, failed, cancelled, expired,
refunded (spec §4.1).  The Go source has no such predicate; it is used here
only to state the claims. -/
def OrderStatus.isTerminal : OrderStatus → Bool
  | .success => true
  | .failed => true
  | .cancelled => true
  | .expired => true
  | .refunded => true
  | _ => false

/-- An order row, the fields of `model.Order` that the verified operations
read or write.  `completedAtSet` abstracts the `completed_at` timestamp to
whether it has been stamped. -/
structure Order where
  id : String
  refId : String
  buyerSKUCode : String
  productName : String
  customerNo : String
  buyPrice : ℚ
  sellingPrice : ℚ
  status : OrderStatus
  digiflazzStatus : String
  digiflazzRC : String
  serialNumber : String
  digiflazzMsg : String
  memberId : Option Int
  memberPrice : Option ℚ
  completedAtSet : Bool
deriving DecidableEq, Repr

/-- `OrderRepository.UpdateStatus` (order_repo.go:142-151):
`UPDATE orders SET status = $2, updated_at = NOW() WHERE id = $1`.
The write is unconditional — there is no check of the current status. -/
def updateStatus (orders : List Order) (id : String) (status : OrderStatus) : List Order :=
  orders.map fun o => if o.id = id then { o with status := status } else o

/-- `OrderRepository.UpdateDigiflazzResponse` (order_repo.go:154-184): writes
status and provider fields unconditionally; `completed_at` is stamped exactly
when the new status is success or failed. -/
def updateDigiflazzResponse (orders : List Order) (id : String) (status : OrderStatus)
    (dfStatus rc sn message : String) : List Order :=
  orders.map fun o =>
    if o.id = id then
      { o with
        status := status
        digiflazzStatus := dfStatus
        digiflazzRC := rc
        serialNumber := sn
        digiflazzMsg := message
        completedAtSet :=
          if status = .success ∨ status = .failed then true else o.completedAtSet }
    else o

/-- `OrderRepository.GetByRefID` (order_repo.go:113-139): point lookup by
`ref_id`; `none` models the pgx no-rows error. -/
def getByRefID (orders : List Order) (refId : String) : Option Order :=
  orders.find? fun o => o.refId == refId

/-- `OrderRepository.GetByID` (order_repo.go:83-110): point lookup by `id`.
When no row matches, pgx returns an error from `Scan` which the repository
wraps and returns — it does NOT translate the no-rows case to a nil order. -/
def dbGetOrderByID (orders : List Order) (id : String) : Except String Order :=
  match orders.find? (fun o => o.id == id) with
  | some o => .ok o
  | none => .error "failed to get order"

/-- Deposit entry types, from the SQL written by `user_repo.go`
(`credit` in TopupBalance, `debit` in DeductBalance, `refund` in RefundBalance). -/
inductive DepositType
  | credit
  | debit
  | refund
deriving DecidableEq, Repr

/-- A ledger (deposits table) row, the fields the verified operations write. -/
structure Deposit where
  amount : ℚ
  dtype : DepositType
  description : String
  referenceId : String
  createdBy : String
deriving DecidableEq, Repr

/-- The signed contribution of a ledger row to the account balance:
debits subtract, credits and refunds add. -/
def Deposit.signedAmount (d : Deposit) : ℚ :=
  match d.dtype with
  | .debit => -d.amount
  | _ => d.amount

/-- The signed sum of a ledger. -/
def ledgerSum (ds : List Deposit) : ℚ :=
  (ds.map Deposit.signedAmount).sum

/-- One member account: the materialized `users.balance` column together with
that account's rows of the `deposits` table. -/
structure AccountState where
  balance : ℚ
  deposits : List Deposit
deriving DecidableEq, Repr

/-- `UserRepository.TopupBalance` (user_repo.go:265-297): inside one
transaction, `balance := balance + amount` and one `credit` deposit row. -/
def topupBalance (s : AccountState) (amount : ℚ) (description createdBy : String) :
    AccountState :=
  { balance := s.balance + amount
    deposits := s.deposits ++ [⟨amount, .credit, description, "", createdBy⟩] }

/-- `UserRepository.DeductBalance` (user_repo.go:300-336): inside one
transaction, fail with "insufficient balance" if `balance < amount`
(rollback, nothing written), else `balance := balance - amount` and one
`debit` deposit row; both writes commit together. -/
def deductBalance (s : AccountState) (amount : ℚ) (description referenceId : String) :
    Except String AccountState :=
  if s.balance < amount then .error "insufficient balance"
  else .ok
    { balance := s.balance - amount
      deposits := s.deposits ++ [⟨amount, .debit, description, referenceId, "system"⟩] }

/-- `UserRepository.RefundBalance` (user_repo.go:339-371): like a credit but
the deposit row is tagged `refund`. -/
def refundBalance (s : AccountState) (amount : ℚ) (description referenceId : String) :
    AccountState :=
  { balance := s.balance + amount
    deposits := s.deposits ++ [⟨amount, .refund, description, referenceId, "system"⟩] }

/-- `UserRepository.UpdateBalance` (user_repo.go:255-262):
`UPDATE users SET balance = $1 WHERE id = $2` — overwrites the balance
directly, with no transaction and no deposit row. -/
def updateBalance (s : AccountState) (newBalance : ℚ) : AccountState :=
  { s with balance := newBalance }

/-- One invocation of a ledger-writing balance operation of
`UserRepository`, with its arguments. -/
inductive LedgerOp
  | topup (amount : ℚ) (description createdBy : String)
  | deduct (amount : ℚ) (description referenceId : String)
  | refund (amount : ℚ) (description referenceId : String)
deriving DecidableEq, Repr

/-- The amount argument of a ledger operation. -/
def LedgerOp.amount : LedgerOp → ℚ
  | .topup a _ _ => a
  | .deduct a _ _ => a
  | .refund a _ _ => a

/-- Apply one ledger operation to an account; a failed debit rolls the
transaction back, leaving the account untouched. -/
def applyLedgerOp (s : AccountState) : LedgerOp → AccountState
  | .topup a d c => topupBalance s a d c
  | .deduct a d r =>
      match deductBalance s a d r with
      | .ok s2 => s2
      | .error _ => s
  | .refund a d r => refundBalance s a d r

/-- Run a sequence of ledger operations left to right. -/
def runLedgerOps (s : AccountState) (ops : List LedgerOp) : AccountState :=
  ops.foldl applyLedgerOp s

/-- Payment statuses, from `internal/model/payment.go`. -/
inductive PaymentStatus
  | pending
  | completed
  | expired
  | cancelled
deriving DecidableEq, Repr

/-- A payment row; only the fields the webhook handler writes. `completedAtSet`
abstracts the `completed_at` timestamp. -/
structure Payment where
  orderId : String
  status : PaymentStatus
  completedAtSet : Bool
deriving DecidableEq, Repr

/-- `PaymentRepository.UpdateStatusByOrderID` (content_repo.go:597-611):
unconditional UPDATE by order id; stamps `completed_at` when the new status
is completed. -/
def updatePaymentStatusByOrderID (payments : List Payment) (orderId : String)
    (status : PaymentStatus) : List Payment :=
  payments.map fun p =>
    if p.orderId = orderId then
      { p with
        status := status
        completedAtSet := if status = .completed then true else p.completedAtSet }
    else p

/-- A webhook receipt row (`webhook_logs` table); the raw payload column is
not needed by any claim and is omitted. -/
structure WebhookLog where
  source : String
  processed : Bool
  errorMessage : String
deriving DecidableEq, Repr

/-- `WebhookLogRepository.MarkProcessed` (content_repo.go:693-704): sets
`processed = true` for the row with the given id, and also writes
`error_message` when the message is nonempty. -/
def markProcessed (logs : List WebhookLog) (id : Nat) (errorMsg : String) :
    List WebhookLog :=
  match logs[id]? with
  | some l =>
      if errorMsg = "" then logs.set id { l with processed := true }
      else logs.set id { l with processed := true, errorMessage := errorMsg }
  | none => logs

/-- The configuration fields the webhook path reads. -/
structure Config where
  pakasirProject : String
deriving DecidableEq, Repr

/-- The Pakasir webhook payload (`pakasir.WebhookPayload`). -/
structure PakasirPayload where
  amount : ℚ
  orderId : String
  project : String
  status : String
deriving DecidableEq, Repr

/-- Go's `int(x)` conversion from `float64`: truncation toward zero.  Both
branches divide a nonnegative numerator by a positive denominator, so the
value does not depend on the integer-division convention. -/
def truncToInt (q : ℚ) : ℤ :=
  if 0 ≤ q then q.num / (q.den : ℤ) else -((-q).num / (((-q).den : ℤ)))

/-- The result of one Digiflazz `CreateTransaction` round-trip
(`digiflazz.Service.CreateTransaction`): either a transport/protocol error
(non-nil Go error) or a parsed response whose `data.status` is one of
"Sukses", "Gagal", "Pending". -/
inductive DigiflazzResult
  | transportError (message : String)
  | response (status rc sn message : String)
deriving DecidableEq, Repr

/-- The Digiflazz-status-to-order-status mapping used by both
`processTopup` (webhook.go:152-159) and `HandleDigiflazzWebhook`
(webhook.go:226-233): "Sukses" ↦ success, "Gagal" ↦ failed,
anything else ↦ processing. -/
def mapDigiflazzStatus (s : String) : OrderStatus :=
  if s = "Sukses" then .success else if s = "Gagal" then .failed else .processing

/-- `WebhookHandler.processTopup` (webhook.go:125-173), the topup
orchestration run in a goroutine after an order is marked paid: set the order
to processing, call Digiflazz, then write the mapped final status (failed
with the error text on a transport error).  It reads and writes only the
orders table — no balance or ledger access appears in the function. -/
def processTopup (orders : List Order) (order : Order) (result : DigiflazzResult) :
    List Order :=
  let orders1 := updateStatus orders order.id .processing
  match result with
  | .transportError msg =>
      updateDigiflazzResponse orders1 order.id .failed "" "" "" msg
  | .response st rc sn msg =>
      updateDigiflazzResponse orders1 order.id (mapDigiflazzStatus st) st rc sn msg

/-- The state touched by the Pakasir webhook handler.  `topupHandoffs`
records each order value passed to `go processTopup(order)`, i.e. each
fulfillment call the handler spawns. -/
structure WebhookState where
  orders : List Order
  payments : List Payment
  logs : List WebhookLog
  topupHandoffs : List Order
deriving DecidableEq, Repr

/-- `WebhookHandler.HandlePakasirWebhook` (webhook.go:44-122).  The receipt is
inserted first; `body = none` models a JSON unmarshal failure (the error text
is abstracted to "unmarshal error").  Returns the new state and the HTTP
response status.  Branches that in Go only log a secondary DB error
(payment update) or cannot fail in a pure embedding (order status write)
follow the success path. -/
def handlePakasirWebhook (cfg : Config) (st : WebhookState) (body : Option PakasirPayload) :
    WebhookState × Nat :=
  let logId := st.logs.length
  let logs0 := st.logs ++ [⟨"pakasir", false, ""⟩]
  match body with
  | none => ({ st with logs := markProcessed logs0 logId "unmarshal error" }, 400)
  | some payload =>
      if payload.project ≠ cfg.pakasirProject then
        ({ st with logs := markProcessed logs0 logId "invalid project" }, 400)
      else if payload.status ≠ "completed" then
        ({ st with logs := markProcessed logs0 logId "" }, 200)
      else
        match getByRefID st.orders payload.orderId with
        | none => ({ st with logs := markProcessed logs0 logId "order not found" }, 404)
        | some order =>
            let expectedAmount : ℚ := (truncToInt (order.sellingPrice + 1/2) : ℤ)
            if payload.amount ≠ expectedAmount then
              ({ st with logs := markProcessed logs0 logId "amount mismatch" }, 400)
            else
              ({ orders := updateStatus st.orders order.id .paid
                 payments := updatePaymentStatusByOrderID st.payments order.id .completed
                 logs := markProcessed logs0 logId ""
                 topupHandoffs := st.topupHandoffs ++ [order] }, 200)

/-- The Digiflazz webhook payload (`digiflazz.WebhookPayload`). -/
structure DigiflazzPayload where
  refId : String
  status : String
  rc : String
  sn : String
  message : String
deriving DecidableEq, Repr

/-- The state touched by the Digiflazz webhook handler. -/
structure DigiflazzWebhookState where
  orders : List Order
  logs : List WebhookLog
deriving DecidableEq, Repr

/-- `WebhookHandler.HandleDigiflazzWebhook` (webhook.go:176-258): log the
receipt, parse, look the order up by `ref_id`, and write the mapped status
and provider fields through `UpdateDigiflazzResponse` — with no check of the
order's current status and no balance or ledger access. -/
def handleDigiflazzWebhook (st : DigiflazzWebhookState) (body : Option DigiflazzPayload) :
    DigiflazzWebhookState × Nat :=
  let logId := st.logs.length
  let logs0 := st.logs ++ [⟨"digiflazz", false, ""⟩]
  match body with
  | none => ({ st with logs := markProcessed logs0 logId "unmarshal error" }, 400)
  | some p =>
      match getByRefID st.orders p.refId with
      | none => ({ st with logs := markProcessed logs0 logId "order not found" }, 404)
      | some order =>
          ({ orders := updateDigiflazzResponse st.orders order.id
               (mapDigiflazzStatus p.status) p.status p.rc p.sn p.message
             logs := markProcessed logs0 logId "" }, 200)

/-- A product row; the fields the member purchase path reads. -/
structure Product where
  buyerSKUCode : String
  productName : String
  buyPrice : ℚ
  isAvailable : Bool
deriving DecidableEq, Repr

/-- Modelled from the spec: `model.Product.ToMemberResponse`, which computes
the member price, is not under src/ (only its callers are).  Spec §6 exposes
the catalog as `getBySKU(sku) -> {name, buyPrice, sellingPrice, isAvailable}`
with a configured markup, and §4.4 fixes the debited amount as the frozen
member-price snapshot; the member handlers call it with `defaultMarkup = 0`.
We model the member price as the buy price plus the markup percentage. -/
def memberPrice (p : Product) (markupPercent : ℚ) : ℚ :=
  p.buyPrice + p.buyPrice * markupPercent / 100

/-- The state touched by the member purchase path: the buyer's account and
the orders table. -/
structure MemberWorld where
  account : AccountState
  orders : List Order
deriving DecidableEq, Repr

/-- `MemberHandler.CreateOrder` (member.go:410-525), POST /member/orders:
validate, price via `ToMemberResponse(0)`, debit the balance, insert the
order in processing, call Digiflazz.  `lookup = none` models a product-table
read error; `orderCreateFails` injects a failing order INSERT (compensated
with a credit); a Digiflazz transport error marks the order failed and
credits the amount back; any parsed Digiflazz response — including
`status = "Gagal"` — is DISCARDED (`_, err = ...`) and the handler reports
success.  Returns the new world and the HTTP status. -/
def memberCreateOrder (w : MemberWorld) (userId : Int) (requestSku destinationNumber : String)
    (lookup : Option Product) (refId newOrderId : String)
    (orderCreateFails : Bool) (df : DigiflazzResult) : MemberWorld × Nat :=
  if requestSku = "" ∨ destinationNumber = "" then (w, 400)
  else
    match lookup with
    | none => (w, 500)
    | some product =>
        if ¬ product.isAvailable then (w, 400)
        else
          let amount := memberPrice product 0
          let description := "Pembelian " ++ product.productName ++ " - " ++ destinationNumber
          match deductBalance w.account amount description refId with
          | .error _ => (w, 400)
          | .ok acct1 =>
              if orderCreateFails then
                ({ w with account :=
                    topupBalance acct1 amount ("Refund Failed Order " ++ refId) "SYSTEM" }, 500)
              else
                let order : Order :=
                  { id := newOrderId, refId := refId, buyerSKUCode := product.buyerSKUCode
                    productName := product.productName, customerNo := destinationNumber
                    buyPrice := product.buyPrice, sellingPrice := amount
                    status := .processing
                    digiflazzStatus := "", digiflazzRC := "", serialNumber := ""
                    digiflazzMsg := "", memberId := some userId
                    memberPrice := some amount, completedAtSet := false }
                let orders1 := w.orders ++ [order]
                match df with
                | .transportError _ =>
                    ({ account :=
                        topupBalance acct1 amount ("Refund Gagal Transaksi " ++ refId) "SYSTEM"
                       orders := updateStatus orders1 newOrderId .failed }, 500)
                | .response _ _ _ _ =>
                    ({ account := acct1, orders := orders1 }, 200)

/-- `MemberHandler.TopupMember` (member.go:967-1006), POST
/admin/members/{id}/topup: reject amounts below 20000 before any repository
call, else default the description and run `TopupBalance`. -/
def topupMember (s : AccountState) (amount : ℚ) (requestDescription adminUsername : String) :
    AccountState × Nat :=
  if amount < 20000 then (s, 400)
  else
    let description :=
      if requestDescription = "" then "Topup saldo oleh admin " ++ adminUsername
      else requestDescription
    (topupBalance s amount description adminUsername, 200)

/-- `MemberHandler.GetOrderByID` (member.go:715-746), GET /member/orders/{id}:
empty id ⇒ 400; a repository error (including the no-rows case, which
`OrderRepository.GetByID` does not translate) ⇒ 500; a found order is
returned only when its `member_id` is present and equals the authenticated
member, otherwise 404 "Order not found".  The Go nil-order branch is
unreachable because the repository never returns a nil order without an
error. -/
def memberGetOrderByID (orders : List Order) (userId : Int) (orderId : String) :
    Nat × Option Order :=
  if orderId = "" then (400, none)
  else
    match dbGetOrderByID orders orderId with
    | .error _ => (500, none)
    | .ok o => if o.memberId = some userId then (200, some o) else (404, none)

/-! ### Helper lemmas -/

/-- Appending one row adds its signed amount to the ledger sum. -/
theorem ledgerSum_append (ds : List Deposit) (d : Deposit) :
    ledgerSum (ds ++ [d]) = ledgerSum ds + d.signedAmount := by
  simp [ledgerSum]

/-- On nonnegative input, Go truncation agrees with the floor. -/
theorem truncToInt_of_nonneg (q : ℚ) (h : 0 ≤ q) : truncToInt q = ⌊q⌋ := by
  unfold truncToInt
  rw [if_pos h]
  exact Rat.floor_def.symm

/-- Go truncation of a natural-number value. -/
theorem truncToInt_natCast (n : ℕ) : truncToInt (n : ℚ) = n := by
  rw [truncToInt_of_nonneg _ (by positivity), Int.floor_natCast]

/-- Go's `int(x + 0.5)` rounding is the identity on natural-number values. -/
theorem truncToInt_add_half_natCast (n : ℕ) : truncToInt ((n : ℚ) + 1/2) = n := by
  rw [truncToInt_of_nonneg _ (by positivity), Int.floor_eq_iff]
  constructor
  · push_cast
    linarith
  · push_cast
    linarith

/-! ### Sample data used by witnesses and counterexamples -/

/-- A fulfilled (terminal) gateway order. -/
def sampleSuccessOrder : Order :=
  { id := "ORD1", refId := "R1", buyerSKUCode := "xld10", productName := "XL 10k"
    customerNo := "0817", buyPrice := 9000, sellingPrice := 10000
    status := .success, digiflazzStatus := "Sukses", digiflazzRC := "00"
    serialNumber := "SN1", digiflazzMsg := "ok", memberId := none
    memberPrice := none, completedAtSet := true }

/-- An order awaiting its gateway payment. -/
def sampleWaitingOrder : Order :=
  { id := "ORD1", refId := "R1", buyerSKUCode := "xld10", productName := "XL 10k"
    customerNo := "0817", buyPrice := 9000, sellingPrice := 10000
    status := .waitingPayment, digiflazzStatus := "", digiflazzRC := ""
    serialNumber := "", digiflazzMsg := "", memberId := none
    memberPrice := none, completedAtSet := false }

/-- An order belonging to member 2. -/
def sampleMemberOrder : Order :=
  { id := "MO1", refId := "INV-9", buyerSKUCode := "ml5", productName := "ML 5"
    customerNo := "1234", buyPrice := 1400, sellingPrice := 1400
    status := .success, digiflazzStatus := "Sukses", digiflazzRC := "00"
    serialNumber := "SN9", digiflazzMsg := "ok", memberId := some 2
    memberPrice := some 1400, completedAtSet := true }

/-! ### C1 — terminal statuses are not protected -/

/-- C1: the claim states that once an order is in a terminal status
(success, failed, cancelled, expired, refunded) no status-update operation
changes it.  Counterexample: `UpdateStatus` moves a `success` order back to
`processing`, and `UpdateDigiflazzResponse` overwrites a `success` order with
`failed`; both writes are plain unconditional UPDATEs. -/
theorem terminal_overwrite_counterexample :
    OrderStatus.isTerminal .success = true ∧
    (updateStatus [sampleSuccessOrder] "ORD1" .processing).map Order.status
      = [.processing] ∧
    (updateDigiflazzResponse [sampleSuccessOrder] "ORD1" .failed "Gagal" "51" "" "err").map
      Order.status = [.failed] := by
  refine ⟨rfl, ?_, ?_⟩ <;> decide

/-- C1 (amended): the status writes of `OrderRepository` apply the requested
status unconditionally — for any stored order, terminal or not, and any
requested status, the store afterwards contains the order with exactly the
requested status; no transition validation exists anywhere in the
repository or the webhook handlers that call it. -/
theorem updateStatus_unconditional (orders : List Order) (o : Order) (st : OrderStatus)
    (hmem : o ∈ orders) (hterm : o.status.isTerminal = true) :
    { o with status := st } ∈ updateStatus orders o.id st := by
  unfold updateStatus
  have h := List.mem_map_of_mem
    (fun q => if q.id = o.id then { q with status := st } else q) hmem
  simpa using h

/-- Witness for `updateStatus_unconditional` at a concrete terminal order. -/
theorem updateStatus_unconditional_witness :
    { sampleSuccessOrder with status := OrderStatus.processing }
      ∈ updateStatus [sampleSuccessOrder] sampleSuccessOrder.id .processing :=
  updateStatus_unconditional [sampleSuccessOrder] sampleSuccessOrder .processing
    (by simp) (by rfl)

/-! ### C4 — debit semantics -/

/-- C4: `DeductBalance` fails with InsufficientBalance exactly when the
balance is strictly below the amount, leaving balance and ledger untouched
(transaction rollback); otherwise it commits, in one transaction, the
balance decrease and exactly one debit row, decreasing the ledger sum by the
amount; a debit of the full balance leaves the balance at zero. -/
theorem deductBalance_spec (s : AccountState) (amount : ℚ) (description referenceId : String) :
    (s.balance < amount →
      deductBalance s amount description referenceId = .error "insufficient balance") ∧
    (amount ≤ s.balance →
      ∃ s2, deductBalance s amount description referenceId = .ok s2 ∧
        s2.balance = s.balance - amount ∧
        s2.deposits = s.deposits ++ [⟨amount, .debit, description, referenceId, "system"⟩] ∧
        ledgerSum s2.deposits = ledgerSum s.deposits - amount ∧
        (amount = s.balance → s2.balance = 0)) := by
  constructor
  · intro h
    unfold deductBalance
    rw [if_pos h]
  · intro h
    have hnot : ¬ s.balance < amount := not_lt.mpr h
    refine ⟨_, by unfold deductBalance; rw [if_neg hnot], rfl, rfl, ?_, ?_⟩
    · rw [ledgerSum_append]
      simp [Deposit.signedAmount, sub_eq_add_neg]
    · intro he
      simp [he]

/-- Witness for `deductBalance_spec`: a debit of the full balance 100
succeeds and leaves the balance at zero. -/
theorem deductBalance_spec_witness :
    ∃ s2, deductBalance ⟨100, []⟩ 100 "beli" "REF1" = .ok s2 ∧ s2.balance = 0 := by
  obtain ⟨s2, hok, -, -, -, hzero⟩ :=
    (deductBalance_spec ⟨100, []⟩ 100 "beli" "REF1").2 (le_refl 100)
  exact ⟨s2, hok, hzero rfl⟩

/-! ### C9 — admin topup minimum -/

/-- C9: the admin member-topup endpoint rejects any amount below 20000 with a
validation error before touching balance or ledger; at or above 20000 it
credits the full amount and writes exactly one credit deposit row. -/
theorem topupMember_minimum (s : AccountState) (amount : ℚ)
    (requestDescription adminUsername : String) :
    (amount < 20000 →
      topupMember s amount requestDescription adminUsername = (s, 400)) ∧
    (20000 ≤ amount →
      (topupMember s amount requestDescription adminUsername).2 = 200 ∧
      (topupMember s amount requestDescription adminUsername).1.balance
        = s.balance + amount ∧
      ∃ d, (topupMember s amount requestDescription adminUsername).1.deposits
          = s.deposits ++ [d] ∧ d.amount = amount ∧ d.dtype = .credit) := by
  constructor
  · intro h
    unfold topupMember
    rw [if_pos h]
  · intro h
    have hnot : ¬ amount < 20000 := not_lt.mpr h
    unfold topupMember
    rw [if_neg hnot]
    exact ⟨rfl, rfl, ⟨_, rfl, rfl, rfl⟩⟩

/-- Witness for `topupMember_minimum`: 19999 is rejected with the account
untouched, 20000 is accepted. -/
theorem topupMember_minimum_witness :
    topupMember ⟨0, []⟩ 19999 "" "admin" = (⟨0, []⟩, 400) ∧
    (topupMember ⟨0, []⟩ 20000 "" "admin").2 = 200 :=
  ⟨(topupMember_minimum ⟨0, []⟩ 19999 "" "admin").1 (by norm_num),
   ((topupMember_minimum ⟨0, []⟩ 20000 "" "admin").2 (le_refl 20000)).1⟩

/-! ### C10 — member order detail lookup -/

/-- C10: the claim states a foreign-owned or ownerless order yields NotFound
"indistinguishable from a nonexistent order".  Counterexample: a nonexistent
order id surfaces the repository's no-rows error as 500 Internal Error
(`OrderRepository.GetByID` does not translate `pgx.ErrNoRows`), while a
foreign-owned order yields 404 — the two responses are distinguishable. -/
theorem memberGetOrder_counterexample :
    memberGetOrderByID [] 1 "MO1" = (500, none) ∧
    memberGetOrderByID [sampleMemberOrder] 1 "MO1" = (404, none) ∧
    (500 : Nat) ≠ 404 := by
  refine ⟨?_, ?_, by decide⟩ <;> rfl

/-- C10 (amended): for a nonempty order id, the member order-detail endpoint
returns the order with 200 exactly when the stored order's member id is
present and equals the authenticated member; a stored order with a different
or absent member id yields 404, and a repository lookup error — including the
nonexistent-order case — yields 500. -/
theorem memberGetOrder_ownership (orders : List Order) (userId : Int) (orderId : String)
    (hne : orderId ≠ "") :
    (∀ e, dbGetOrderByID orders orderId = .error e →
      memberGetOrderByID orders userId orderId = (500, none)) ∧
    (∀ o, dbGetOrderByID orders orderId = .ok o →
      (o.memberId = some userId →
        memberGetOrderByID orders userId orderId = (200, some o)) ∧
      (o.memberId ≠ some userId →
        memberGetOrderByID orders userId orderId = (404, none))) := by
  unfold memberGetOrderByID
  rw [if_neg hne]
  constructor
  · intro e he
    rw [he]
  · intro o ho
    rw [ho]
    exact ⟨fun h => by simp [h], fun h => by simp [h]⟩

/-- Witness for `memberGetOrder_ownership`: the owner (member 2) receives
their order with 200; member 1 receives 404 for the same order. -/
theorem memberGetOrder_ownership_witness :
    memberGetOrderByID [sampleMemberOrder] 2 "MO1" = (200, some sampleMemberOrder) ∧
    memberGetOrderByID [sampleMemberOrder] 1 "MO1" = (404, none) :=
  ⟨((memberGetOrder_ownership [sampleMemberOrder] 2 "MO1" (by decide)).2
      sampleMemberOrder rfl).1 rfl,
   ((memberGetOrder_ownership [sampleMemberOrder] 1 "MO1" (by decide)).2
      sampleMemberOrder rfl).2 (by decide)⟩

/-! ### C5 — ledger reconciliation invariant -/

/-- One ledger-writing operation preserves reconciliation: if the balance
equals the signed ledger sum and is nonnegative, both still hold afterwards
(given a nonnegative amount), and either exactly one deposit row was
appended or the whole transaction rolled back leaving the account untouched. -/
theorem applyLedgerOp_step (s : AccountState) (op : LedgerOp) (h0 : 0 ≤ op.amount)
    (hsum : s.balance = ledgerSum s.deposits) (hpos : 0 ≤ s.balance) :
    ((applyLedgerOp s op).balance = ledgerSum (applyLedgerOp s op).deposits ∧
      0 ≤ (applyLedgerOp s op).balance) ∧
    ((applyLedgerOp s op).deposits.length = s.deposits.length + 1 ∨
      applyLedgerOp s op = s) := by
  cases op with
  | topup a d c =>
      simp only [LedgerOp.amount] at h0
      refine ⟨⟨?_, ?_⟩, Or.inl (by simp [applyLedgerOp, topupBalance])⟩
      · simp [applyLedgerOp, topupBalance, ledgerSum_append, Deposit.signedAmount, hsum]
      · exact add_nonneg hpos h0
  | deduct a d r =>
      simp only [LedgerOp.amount] at h0
      by_cases hlt : s.balance < a
      · have : applyLedgerOp s (.deduct a d r) = s := by
          simp [applyLedgerOp, deductBalance, hlt]
        rw [this]
        exact ⟨⟨hsum, hpos⟩, Or.inr rfl⟩
      · have hs2 : applyLedgerOp s (.deduct a d r) =
            ⟨s.balance - a, s.deposits ++ [⟨a, .debit, d, r, "system"⟩]⟩ := by
          simp [applyLedgerOp, deductBalance, hlt]
        rw [hs2]
        refine ⟨⟨?_, ?_⟩, Or.inl (by simp)⟩
        · simp [ledgerSum_append, Deposit.signedAmount, hsum, sub_eq_add_neg]
        · simpa using sub_nonneg.mpr (not_lt.mp hlt)
  | refund a d r =>
      simp only [LedgerOp.amount] at h0
      refine ⟨⟨?_, ?_⟩, Or.inl (by simp [applyLedgerOp, refundBalance])⟩
      · simp [applyLedgerOp, refundBalance, ledgerSum_append, Deposit.signedAmount, hsum]
      · exact add_nonneg hpos h0

/-- C5 (amended): after any sequence of the three ledger operations
(`TopupBalance`, `DeductBalance`, `RefundBalance`) with nonnegative amounts,
the balance stays nonnegative and equal to the signed ledger sum — each of
those operations writes its deposit row and balance update in one
transaction.  (As stated, the claim is refuted by the fourth exposed
operation, `UpdateBalance`, which mutates the balance with no ledger row:
see the counterexample.) -/
theorem ledger_ops_reconcile (s : AccountState) (ops : List LedgerOp)
    (hamounts : ∀ op ∈ ops, 0 ≤ op.amount)
    (hsum : s.balance = ledgerSum s.deposits) (hpos : 0 ≤ s.balance) :
    (runLedgerOps s ops).balance = ledgerSum (runLedgerOps s ops).deposits ∧
    0 ≤ (runLedgerOps s ops).balance := by
  induction ops generalizing s with
  | nil => exact ⟨hsum, hpos⟩
  | cons op rest ih =>
      have h0 : 0 ≤ op.amount := hamounts op (by simp)
      have step := applyLedgerOp_step s op h0 hsum hpos
      exact ih (applyLedgerOp s op) (fun q hq => hamounts q (by simp [hq]))
        step.1.1 step.1.2

/-- Witness for `ledger_ops_reconcile`: a topup of 20000 followed by a debit
of 5000 leaves the account reconciled at balance 15000. -/
theorem ledger_ops_reconcile_witness :
    (runLedgerOps ⟨0, []⟩ [.topup 20000 "topup" "admin", .deduct 5000 "beli" "INV-1"]).balance
      = ledgerSum (runLedgerOps ⟨0, []⟩
          [.topup 20000 "topup" "admin", .deduct 5000 "beli" "INV-1"]).deposits ∧
    0 ≤ (runLedgerOps ⟨0, []⟩
          [.topup 20000 "topup" "admin", .deduct 5000 "beli" "INV-1"]).balance :=
  ledger_ops_reconcile ⟨0, []⟩ [.topup 20000 "topup" "admin", .deduct 5000 "beli" "INV-1"]
    (by intro op hop; fin_cases hop <;> simp [LedgerOp.amount])
    (by simp [ledgerSum]) (le_refl 0)

/-- C5: the claim states that no operation mutates the balance without a
paired ledger entry.  Counterexample: `UserRepository.UpdateBalance` sets the
balance of a reconciled account to -50 while writing no deposit row, leaving
the balance negative and different from the signed ledger sum. -/
theorem updateBalance_breaks_ledger_counterexample :
    (ledgerSum (AccountState.mk 100 [⟨100, .credit, "topup", "", "admin"⟩]).deposits
      = (AccountState.mk 100 [⟨100, .credit, "topup", "", "admin"⟩]).balance) ∧
    (updateBalance ⟨100, [⟨100, .credit, "topup", "", "admin"⟩]⟩ (-50)).deposits
      = [⟨100, .credit, "topup", "", "admin"⟩] ∧
    (updateBalance ⟨100, [⟨100, .credit, "topup", "", "admin"⟩]⟩ (-50)).balance
      ≠ ledgerSum (updateBalance ⟨100, [⟨100, .credit, "topup", "", "admin"⟩]⟩ (-50)).deposits ∧
    (updateBalance ⟨100, [⟨100, .credit, "topup", "", "admin"⟩]⟩ (-50)).balance < 0 := by
  refine ⟨?_, rfl, ?_, ?_⟩
  · simp [ledgerSum, Deposit.signedAmount]
  · simp [updateBalance, ledgerSum, Deposit.signedAmount]
    norm_num
  · simp [updateBalance]

/-! ### Pakasir webhook branch characterizations -/

/-- `markProcessed` never changes the number of receipts. -/
theorem markProcessed_length (logs : List WebhookLog) (id : Nat) (msg : String) :
    (markProcessed logs id msg).length = logs.length := by
  unfold markProcessed
  cases h : logs[id]? <;> by_cases hm : msg = "" <;> simp [hm]

/-- A webhook body that fails to parse: receipt logged, marked failed, 400. -/
theorem pakasir_run_parseFail (cfg : Config) (st : WebhookState) :
    handlePakasirWebhook cfg st none =
      ({ st with logs := (markProcessed (st.logs ++ [⟨"pakasir", false, ""⟩])
          st.logs.length "unmarshal error") }, 400) := rfl

/-- A payload for a different Pakasir project: rejected with 400. -/
theorem pakasir_run_badProject (cfg : Config) (st : WebhookState) (p : PakasirPayload)
    (hproj : p.project ≠ cfg.pakasirProject) :
    handlePakasirWebhook cfg st (some p) =
      ({ st with logs := (markProcessed (st.logs ++ [⟨"pakasir", false, ""⟩])
          st.logs.length "invalid project") }, 400) := by
  simp [handlePakasirWebhook, hproj]

/-- A non-completed payment status is ignored with 200 and no writes. -/
theorem pakasir_run_ignored (cfg : Config) (st : WebhookState) (p : PakasirPayload)
    (hproj : p.project = cfg.pakasirProject) (hstat : p.status ≠ "completed") :
    handlePakasirWebhook cfg st (some p) =
      ({ st with logs := (markProcessed (st.logs ++ [⟨"pakasir", false, ""⟩])
          st.logs.length "") }, 200) := by
  simp [handlePakasirWebhook, hproj, hstat]

/-- An unknown order id: rejected with 404. -/
theorem pakasir_run_notFound (cfg : Config) (st : WebhookState) (p : PakasirPayload)
    (hproj : p.project = cfg.pakasirProject) (hstat : p.status = "completed")
    (hfind : getByRefID st.orders p.orderId = none) :
    handlePakasirWebhook cfg st (some p) =
      ({ st with logs := (markProcessed (st.logs ++ [⟨"pakasir", false, ""⟩])
          st.logs.length "order not found") }, 404) := by
  simp [handlePakasirWebhook, hproj, hstat, hfind]

/-- An amount different from the rounded selling price: rejected with 400,
orders, payments and hand-offs untouched. -/
theorem pakasir_run_amountMismatch (cfg : Config) (st : WebhookState) (p : PakasirPayload)
    (o : Order) (hproj : p.project = cfg.pakasirProject) (hstat : p.status = "completed")
    (hfind : getByRefID st.orders p.orderId = some o)
    (hmm : p.amount ≠ ((truncToInt (o.sellingPrice + 1/2) : ℤ) : ℚ)) :
    handlePakasirWebhook cfg st (some p) =
      ({ st with logs := (markProcessed (st.logs ++ [⟨"pakasir", false, ""⟩])
          st.logs.length "amount mismatch") }, 400) := by
  simp [handlePakasirWebhook, hproj, hstat, hfind]
  simpa using hmm

/-- A matching completed payload: payment completed, order set to paid, one
fulfillment hand-off appended — with no check of the order's current status. -/
theorem pakasir_run_success (cfg : Config) (st : WebhookState) (p : PakasirPayload)
    (o : Order) (hproj : p.project = cfg.pakasirProject) (hstat : p.status = "completed")
    (hfind : getByRefID st.orders p.orderId = some o)
    (hamount : p.amount = ((truncToInt (o.sellingPrice + 1/2) : ℤ) : ℚ)) :
    handlePakasirWebhook cfg st (some p) =
      ({ orders := updateStatus st.orders o.id .paid
         payments := updatePaymentStatusByOrderID st.payments o.id .completed
         logs := markProcessed (st.logs ++ [⟨"pakasir", false, ""⟩]) st.logs.length ""
         topupHandoffs := st.topupHandoffs ++ [o] }, 200) := by
  simp [handlePakasirWebhook, hproj, hstat, hfind, hamount]

/-- Rounding the integer price 10000 leaves it unchanged. -/
theorem expectedAmount10000 : ((truncToInt ((10000 : ℚ) + 1/2) : ℤ) : ℚ) = 10000 := by
  rw [show (10000 : ℚ) = ((10000 : ℕ) : ℚ) by norm_num, truncToInt_add_half_natCast]
  norm_num

/-- Concrete configuration used by the webhook scenarios. -/
def dupCfg : Config := ⟨"prj"⟩

/-- A completed Pakasir callback for ref `R1`, amount 10000. -/
def dupPayload : PakasirPayload := ⟨10000, "R1", "prj", "completed"⟩

/-- Webhook-handler state holding one order awaiting payment. -/
def dupState : WebhookState :=
  ⟨[sampleWaitingOrder], [⟨"ORD1", .pending, false⟩], [], []⟩

/-! ### C2 — duplicate webhook deliveries -/

/-- C2: the claim states that delivering the same completed payload twice
triggers exactly one fulfillment call.  Counterexample: delivering the same
payload twice to the same order produces TWO fulfillment hand-offs (two
`go processTopup` spawns), because the handler never inspects the order's
current status. -/
theorem pakasir_duplicate_delivery_counterexample :
    (handlePakasirWebhook dupCfg dupState (some dupPayload)).2 = 200 ∧
    (handlePakasirWebhook dupCfg (handlePakasirWebhook dupCfg dupState (some dupPayload)).1
        (some dupPayload)).2 = 200 ∧
    (handlePakasirWebhook dupCfg (handlePakasirWebhook dupCfg dupState (some dupPayload)).1
        (some dupPayload)).1.topupHandoffs.length = 2 := by
  have h1 := pakasir_run_success dupCfg dupState dupPayload sampleWaitingOrder
    rfl rfl rfl expectedAmount10000.symm
  simp only [h1]
  have hfind2 : getByRefID (updateStatus dupState.orders sampleWaitingOrder.id .paid)
      dupPayload.orderId = some { sampleWaitingOrder with status := .paid } := by rfl
  have h2 := pakasir_run_success dupCfg
    ⟨updateStatus dupState.orders sampleWaitingOrder.id .paid,
     updatePaymentStatusByOrderID dupState.payments sampleWaitingOrder.id .completed,
     markProcessed (dupState.logs ++ [⟨"pakasir", false, ""⟩]) dupState.logs.length "",
     dupState.topupHandoffs ++ [sampleWaitingOrder]⟩ dupPayload
    { sampleWaitingOrder with status := .paid } rfl rfl hfind2 expectedAmount10000.symm
  simp only [h2]
  exact ⟨trivial, trivial, rfl⟩

/-- C2 (amended): the Pakasir handler performs no idempotency or
current-status check: every delivery of a completed, project- and
amount-matching payload — including re-deliveries for orders already in
paid, processing or success — marks the order paid again and appends one
more fulfillment hand-off, so n deliveries spawn n fulfillment calls. -/
theorem pakasir_handoff_every_delivery (cfg : Config) (st : WebhookState)
    (p : PakasirPayload) (o : Order)
    (hproj : p.project = cfg.pakasirProject) (hstat : p.status = "completed")
    (hfind : getByRefID st.orders p.orderId = some o)
    (hamount : p.amount = ((truncToInt (o.sellingPrice + 1/2) : ℤ) : ℚ)) :
    (handlePakasirWebhook cfg st (some p)).1.topupHandoffs = st.topupHandoffs ++ [o] ∧
    (handlePakasirWebhook cfg st (some p)).1.orders = updateStatus st.orders o.id .paid ∧
    (handlePakasirWebhook cfg st (some p)).2 = 200 := by
  rw [pakasir_run_success cfg st p o hproj hstat hfind hamount]
  exact ⟨rfl, rfl, rfl⟩

/-- Witness for `pakasir_handoff_every_delivery`: the handler hands an order
already in `success` off to fulfillment once more. -/
theorem pakasir_handoff_every_delivery_witness :
    (handlePakasirWebhook dupCfg ⟨[sampleSuccessOrder], [], [], []⟩
        (some dupPayload)).1.topupHandoffs = [sampleSuccessOrder] ∧
    (handlePakasirWebhook dupCfg ⟨[sampleSuccessOrder], [], [], []⟩
        (some dupPayload)).2 = 200 := by
  have h := pakasir_handoff_every_delivery dupCfg ⟨[sampleSuccessOrder], [], [], []⟩
    dupPayload sampleSuccessOrder rfl rfl rfl expectedAmount10000.symm
  exact ⟨h.1, h.2.2⟩

/-! ### C6 — amount verification -/

/-- An order wanting payment whose frozen selling price is 10000.5. -/
def halfPriceOrder : Order := { sampleWaitingOrder with sellingPrice := 20001/2 }

/-- A completed Pakasir callback for ref `R1`, amount 10001. -/
def halfPayload : PakasirPayload := ⟨10001, "R1", "prj", "completed"⟩

/-- Webhook-handler state holding only `halfPriceOrder`. -/
def halfState : WebhookState := ⟨[halfPriceOrder], [], [], []⟩

/-- C6: the claim states the callback amount is checked with
integer-truncated comparison and every divergence under that comparison is
rejected.  Counterexample: for an order priced 10000.5 and a callback amount
of 10001 the truncated values diverge (10001 ≠ 10000), yet the handler —
which actually compares against `float64(int(price + 0.5))`, a half-up
rounding — accepts the callback with 200 and marks the order paid. -/
theorem pakasir_truncation_counterexample :
    truncToInt (10001 : ℚ) ≠ truncToInt halfPriceOrder.sellingPrice ∧
    (handlePakasirWebhook dupCfg halfState (some halfPayload)).2 = 200 ∧
    (handlePakasirWebhook dupCfg halfState (some halfPayload)).1.orders.map Order.status
      = [.paid] := by
  have t1 : truncToInt (10001 : ℚ) = 10001 := by
    rw [show (10001 : ℚ) = ((10001 : ℕ) : ℚ) by norm_num, truncToInt_natCast]
    norm_num
  have t2 : truncToInt halfPriceOrder.sellingPrice = 10000 := by
    show truncToInt ((20001 : ℚ)/2) = 10000
    rw [truncToInt_of_nonneg _ (by norm_num), Int.floor_eq_iff]
    constructor
    · push_cast
      norm_num
    · push_cast
      norm_num
  have ha : halfPayload.amount = ((truncToInt (halfPriceOrder.sellingPrice + 1/2) : ℤ) : ℚ) := by
    show (10001 : ℚ) = ((truncToInt ((20001 : ℚ)/2 + 1/2) : ℤ) : ℚ)
    rw [show ((20001 : ℚ)/2 + 1/2) = ((10001 : ℕ) : ℚ) by norm_num, truncToInt_natCast]
    norm_num
  have hs := pakasir_run_success dupCfg halfState halfPayload halfPriceOrder rfl rfl rfl ha
  refine ⟨by rw [t1, t2]; decide, ?_, ?_⟩
  · rw [hs]
  · simp only [hs]
    rfl

/-- C6 (amended): the handler compares the callback amount for exact
equality against the order's selling price rounded half-up to an integer
(`float64(int(price + 0.5))`); whenever they differ, the webhook is rejected
with 400, "amount mismatch" is recorded on the receipt, and orders,
payments and fulfillment hand-offs are all left untouched. -/
theorem pakasir_amount_mismatch_rejected (cfg : Config) (st : WebhookState)
    (p : PakasirPayload) (o : Order)
    (hproj : p.project = cfg.pakasirProject) (hstat : p.status = "completed")
    (hfind : getByRefID st.orders p.orderId = some o)
    (hmm : p.amount ≠ ((truncToInt (o.sellingPrice + 1/2) : ℤ) : ℚ)) :
    (handlePakasirWebhook cfg st (some p)).1.orders = st.orders ∧
    (handlePakasirWebhook cfg st (some p)).1.payments = st.payments ∧
    (handlePakasirWebhook cfg st (some p)).1.topupHandoffs = st.topupHandoffs ∧
    (handlePakasirWebhook cfg st (some p)).2 = 400 ∧
    (handlePakasirWebhook cfg st (some p)).1.logs
      = markProcessed (st.logs ++ [⟨"pakasir", false, ""⟩]) st.logs.length "amount mismatch" := by
  rw [pakasir_run_amountMismatch cfg st p o hproj hstat hfind hmm]
  exact ⟨rfl, rfl, rfl, rfl, rfl⟩

/-- Witness for `pakasir_amount_mismatch_rejected`: a callback of 9999
against price 10000 is rejected and the order stays `waiting_payment`. -/
theorem pakasir_amount_mismatch_rejected_witness :
    (handlePakasirWebhook dupCfg dupState (some ⟨9999, "R1", "prj", "completed"⟩)).1.orders
      = dupState.orders ∧
    (handlePakasirWebhook dupCfg dupState (some ⟨9999, "R1", "prj", "completed"⟩)).2 = 400 := by
  have hmm : (PakasirPayload.mk 9999 "R1" "prj" "completed").amount
      ≠ ((truncToInt (sampleWaitingOrder.sellingPrice + 1/2) : ℤ) : ℚ) := by
    show (9999 : ℚ) ≠ ((truncToInt ((10000 : ℚ) + 1/2) : ℤ) : ℚ)
    rw [expectedAmount10000]
    norm_num
  have h := pakasir_amount_mismatch_rejected dupCfg dupState ⟨9999, "R1", "prj", "completed"⟩
    sampleWaitingOrder rfl rfl rfl hmm
  exact ⟨h.1, h.2.2.2.1⟩

/-! ### C7 — webhook HTTP responses -/

/-- C7: the claim states that once the receipt is logged the HTTP response is
200 regardless of outcome.  Counterexample: a completed callback for an
unknown order logs the receipt (one row, marked processed) and responds 404. -/
theorem pakasir_logged_but_404_counterexample :
    (handlePakasirWebhook dupCfg ⟨[], [], [], []⟩ (some dupPayload)).1.logs.length = 1 ∧
    (handlePakasirWebhook dupCfg ⟨[], [], [], []⟩
        (some dupPayload)).1.logs.map WebhookLog.processed = [true] ∧
    (handlePakasirWebhook dupCfg ⟨[], [], [], []⟩ (some dupPayload)).2 = 404 := by
  refine ⟨rfl, rfl, rfl⟩

/-- C7 (amended): every inbound Pakasir callback appends exactly one receipt
row before anything else, but the HTTP status is not always 200 afterwards:
a parse failure or project mismatch yields 400, an unknown order 404, an
amount mismatch 400; only a fully processed completed payload or an ignored
non-completed status yields 200.  Failure reasons are additionally recorded
on the receipt. -/
theorem pakasir_response_not_always_200 (cfg : Config) (st : WebhookState) :
    (∀ body, (handlePakasirWebhook cfg st body).1.logs.length = st.logs.length + 1) ∧
    ((handlePakasirWebhook cfg st none).2 = 400) ∧
    (∀ p, p.project ≠ cfg.pakasirProject →
      (handlePakasirWebhook cfg st (some p)).2 = 400) ∧
    (∀ p, p.project = cfg.pakasirProject → p.status ≠ "completed" →
      (handlePakasirWebhook cfg st (some p)).2 = 200) ∧
    (∀ p, p.project = cfg.pakasirProject → p.status = "completed" →
      getByRefID st.orders p.orderId = none →
      (handlePakasirWebhook cfg st (some p)).2 = 404) ∧
    (∀ p o, p.project = cfg.pakasirProject → p.status = "completed" →
      getByRefID st.orders p.orderId = some o →
      p.amount ≠ ((truncToInt (o.sellingPrice + 1/2) : ℤ) : ℚ) →
      (handlePakasirWebhook cfg st (some p)).2 = 400) ∧
    (∀ p o, p.project = cfg.pakasirProject → p.status = "completed" →
      getByRefID st.orders p.orderId = some o →
      p.amount = ((truncToInt (o.sellingPrice + 1/2) : ℤ) : ℚ) →
      (handlePakasirWebhook cfg st (some p)).2 = 200) := by
  refine ⟨?_, ?_, ?_, ?_, ?_, ?_, ?_⟩
  · intro body
    cases body with
    | none =>
        rw [pakasir_run_parseFail]
        simp [markProcessed_length]
    | some p =>
        by_cases hproj : p.project = cfg.pakasirProject
        · by_cases hstat : p.status = "completed"
          · cases hfind : getByRefID st.orders p.orderId with
            | none =>
                rw [pakasir_run_notFound cfg st p hproj hstat hfind]
                simp [markProcessed_length]
            | some o =>
                by_cases hamount : p.amount = ((truncToInt (o.sellingPrice + 1/2) : ℤ) : ℚ)
                · rw [pakasir_run_success cfg st p o hproj hstat hfind hamount]
                  simp [markProcessed_length]
                · rw [pakasir_run_amountMismatch cfg st p o hproj hstat hfind hamount]
                  simp [markProcessed_length]
          · rw [pakasir_run_ignored cfg st p hproj hstat]
            simp [markProcessed_length]
        · rw [pakasir_run_badProject cfg st p hproj]
          simp [markProcessed_length]
  · rw [pakasir_run_parseFail]
  · intro p h
    rw [pakasir_run_badProject cfg st p h]
  · intro p h1 h2
    rw [pakasir_run_ignored cfg st p h1 h2]
  · intro p h1 h2 h3
    rw [pakasir_run_notFound cfg st p h1 h2 h3]
  · intro p o h1 h2 h3 h4
    rw [pakasir_run_amountMismatch cfg st p o h1 h2 h3 h4]
  · intro p o h1 h2 h3 h4
    rw [pakasir_run_success cfg st p o h1 h2 h3 h4]

/-- Witness for `pakasir_response_not_always_200`: a parse failure still
logs its receipt and responds 400, not 200. -/
theorem pakasir_response_not_always_200_witness :
    (handlePakasirWebhook dupCfg ⟨[], [], [], []⟩ none).1.logs.length = 1 ∧
    (handlePakasirWebhook dupCfg ⟨[], [], [], []⟩ none).2 = 400 :=
  ⟨(pakasir_response_not_always_200 dupCfg ⟨[], [], [], []⟩).1 none,
   (pakasir_response_not_always_200 dupCfg ⟨[], [], [], []⟩).2.1⟩

/-! ### Member purchase path -/

/-- `UpdateStatus` with an id absent from the store is the identity. -/
theorem updateStatus_fresh (oid : String) (st : OrderStatus) (orders : List Order) :
    (∀ q ∈ orders, q.id ≠ oid) → updateStatus orders oid st = orders := by
  induction orders with
  | nil => intro _; rfl
  | cons a l ih =>
      intro h
      have ha : a.id ≠ oid := h a (by simp)
      have hl : ∀ q ∈ l, q.id ≠ oid := fun q hq => h q (List.mem_cons_of_mem a hq)
      have hrest := ih hl
      simp only [updateStatus, List.map_cons] at hrest ⊢
      rw [if_neg ha, hrest]

/-- Updating a freshly appended order touches only that order. -/
theorem updateStatus_append_fresh (orders : List Order) (o : Order) (st : OrderStatus)
    (hfresh : ∀ q ∈ orders, q.id ≠ o.id) :
    updateStatus (orders ++ [o]) o.id st = orders ++ [{ o with status := st }] := by
  have hs : updateStatus (orders ++ [o]) o.id st
      = updateStatus orders o.id st ++ updateStatus [o] o.id st := by
    simp [updateStatus]
  rw [hs, updateStatus_fresh o.id st orders hfresh]
  congr 1
  simp [updateStatus]

/-- The Digiflazz webhook handler on a payload that resolves to an order:
unconditional `UpdateDigiflazzResponse` write, receipt marked, 200.  The
handler state contains no account, so this handler cannot issue refunds. -/
theorem digiflazz_run_found (st : DigiflazzWebhookState) (p : DigiflazzPayload) (o : Order)
    (hfind : getByRefID st.orders p.refId = some o) :
    handleDigiflazzWebhook st (some p) =
      ({ orders := updateDigiflazzResponse st.orders o.id (mapDigiflazzStatus p.status)
           p.status p.rc p.sn p.message
         logs := markProcessed (st.logs ++ [⟨"digiflazz", false, ""⟩]) st.logs.length "" },
        200) := by
  simp [handleDigiflazzWebhook, hfind]

/-! ### C8 — compensation when the order insert fails -/

/-- C8: in the member purchase path, when the balance debit succeeded but the
dependent order INSERT fails, the handler issues a compensating credit of the
exact debited amount to the same account: the final balance equals the
initial balance, the ledger holds the matching debit/credit pair, no order
is created, and the request fails with 500. -/
theorem member_insert_fail_compensation (w : MemberWorld) (userId : Int)
    (sku dest : String) (p : Product) (refId oid : String) (df : DigiflazzResult)
    (hsku : sku ≠ "") (hdest : dest ≠ "") (havail : p.isAvailable = true)
    (hbal : memberPrice p 0 ≤ w.account.balance) :
    (memberCreateOrder w userId sku dest (some p) refId oid true df).1.account.balance
      = w.account.balance ∧
    (memberCreateOrder w userId sku dest (some p) refId oid true df).2 = 500 ∧
    (memberCreateOrder w userId sku dest (some p) refId oid true df).1.orders = w.orders ∧
    ∃ d1 d2,
      (memberCreateOrder w userId sku dest (some p) refId oid true df).1.account.deposits
        = w.account.deposits ++ [d1] ++ [d2] ∧
      d1.dtype = .debit ∧ d1.amount = memberPrice p 0 ∧
      d2.dtype = .credit ∧ d2.amount = memberPrice p 0 := by
  have hlt : ¬ w.account.balance < memberPrice p 0 := not_lt.mpr hbal
  refine ⟨?_, ?_, ?_, ?_⟩
  · simp [memberCreateOrder, hsku, hdest, havail, deductBalance, hlt, topupBalance]
  · simp [memberCreateOrder, hsku, hdest, havail, deductBalance, hlt]
  · simp [memberCreateOrder, hsku, hdest, havail, deductBalance, hlt]
  · refine ⟨⟨memberPrice p 0, .debit, "Pembelian " ++ p.productName ++ " - " ++ dest,
      refId, "system"⟩, ⟨memberPrice p 0, .credit, "Refund Failed Order " ++ refId,
      "", "SYSTEM"⟩, ?_, rfl, rfl, rfl, rfl⟩
    simp [memberCreateOrder, hsku, hdest, havail, deductBalance, hlt, topupBalance]

/-- Witness for `member_insert_fail_compensation`: a member with balance 5000
buying a 5000-priced item whose order INSERT fails ends with balance 5000. -/
theorem member_insert_fail_compensation_witness :
    (memberCreateOrder ⟨⟨5000, []⟩, []⟩ 7 "ml5" "12345"
        (some ⟨"ml5", "ML 5 Diamonds", 5000, true⟩) "INV-1" "MO2" true
        (.response "Gagal" "50" "" "x")).1.account.balance = 5000 ∧
    (memberCreateOrder ⟨⟨5000, []⟩, []⟩ 7 "ml5" "12345"
        (some ⟨"ml5", "ML 5 Diamonds", 5000, true⟩) "INV-1" "MO2" true
        (.response "Gagal" "50" "" "x")).2 = 500 := by
  have h := member_insert_fail_compensation ⟨⟨5000, []⟩, []⟩ 7 "ml5" "12345"
    ⟨"ml5", "ML 5 Diamonds", 5000, true⟩ "INV-1" "MO2" (.response "Gagal" "50" "" "x")
    (by decide) (by decide) rfl (by simp [memberPrice])
  exact ⟨h.1, h.2.1⟩

/-! ### C3 — refund on failed fulfillment -/

/-- The member account used by the refund scenario: balance 5000, reconciled
with one credit row. -/
def memberAccount0 : AccountState := ⟨5000, [⟨5000, .credit, "Topup saldo", "", "admin"⟩]⟩

/-- A product the member buys at member price 5000 (markup 0). -/
def memberProduct : Product := ⟨"ml5", "ML 5 Diamonds", 5000, true⟩

/-- The member purchase where Digiflazz synchronously answers `Gagal`:
the handler discards the parsed response and reports success. -/
def gagalRun1 : MemberWorld × Nat :=
  memberCreateOrder ⟨memberAccount0, []⟩ 7 "ml5" "12345" (some memberProduct)
    "INV-1" "MO2" false (.response "Gagal" "50" "" "invalid number")

/-- The later Digiflazz webhook delivering the final `Gagal` status for the
same order. -/
def gagalRun2 : DigiflazzWebhookState × Nat :=
  handleDigiflazzWebhook ⟨gagalRun1.1.orders, []⟩
    (some ⟨"INV-1", "Gagal", "50", "", "invalid number"⟩)

/-- C3: the claim states that a member-funded order whose fulfillment returns
the provider result `failed` is transitioned to failed AND refunded, netting
the balance back to its pre-debit value (spec scenario B).  Counterexample:
a member with balance 5000 buys a 5000-priced item; Digiflazz answers
`Gagal`; the purchase handler discards the response and returns 200; the
Digiflazz webhook later marks the order failed — and no refund is ever
issued: the ledger holds only the original credit and the debit, and the
balance stays 0 instead of returning to 5000.  (`handleDigiflazzWebhook` and
`processTopup` operate on states without any account, so neither can write
a refund.) -/
theorem member_gagal_no_refund_counterexample :
    memberAccount0.balance = 5000 ∧
    gagalRun1.2 = 200 ∧
    gagalRun1.1.account.balance = 0 ∧
    gagalRun1.1.account.deposits.map Deposit.dtype = [.credit, .debit] ∧
    gagalRun2.2 = 200 ∧
    gagalRun2.1.orders.map Order.status = [.failed] ∧
    gagalRun1.1.account.balance ≠ memberAccount0.balance := by
  refine ⟨rfl, ?_, ?_, ?_, ?_, ?_, ?_⟩
  · simp [gagalRun1, memberCreateOrder, memberProduct, memberPrice, memberAccount0,
      deductBalance]
  · simp [gagalRun1, memberCreateOrder, memberProduct, memberPrice, memberAccount0,
      deductBalance]
  · simp [gagalRun1, memberCreateOrder, memberProduct, memberPrice, memberAccount0,
      deductBalance]
  · simp [gagalRun2, gagalRun1, memberCreateOrder, memberProduct, memberPrice,
      memberAccount0, deductBalance, handleDigiflazzWebhook, getByRefID,
      mapDigiflazzStatus]
  · simp [gagalRun2, gagalRun1, memberCreateOrder, memberProduct, memberPrice,
      memberAccount0, deductBalance, handleDigiflazzWebhook, getByRefID,
      mapDigiflazzStatus, updateDigiflazzResponse]
  · simp [gagalRun1, memberCreateOrder, memberProduct, memberPrice, memberAccount0,
      deductBalance]

/-- C3 (amended): only a TRANSPORT error from the Digiflazz call makes the
member purchase path transition the order to failed and credit the debited
amount back — for that branch the balance round-trips to its pre-debit value
and the ledger records the debit and the matching compensation.  (A
provider-level `failed` result is discarded by the purchase handler, and the
webhook that later records it issues no refund: see the counterexample.) -/
theorem member_transport_error_refund (w : MemberWorld) (userId : Int)
    (sku dest : String) (p : Product) (refId oid msg : String)
    (hsku : sku ≠ "") (hdest : dest ≠ "") (havail : p.isAvailable = true)
    (hbal : memberPrice p 0 ≤ w.account.balance)
    (hfresh : ∀ q ∈ w.orders, q.id ≠ oid) :
    (memberCreateOrder w userId sku dest (some p) refId oid false
        (.transportError msg)).1.account.balance = w.account.balance ∧
    (memberCreateOrder w userId sku dest (some p) refId oid false
        (.transportError msg)).2 = 500 ∧
    (∃ o, (memberCreateOrder w userId sku dest (some p) refId oid false
        (.transportError msg)).1.orders = w.orders ++ [o] ∧
      o.status = .failed ∧ o.memberId = some userId ∧ o.refId = refId ∧
      o.memberPrice = some (memberPrice p 0)) ∧
    ∃ d1 d2, (memberCreateOrder w userId sku dest (some p) refId oid false
        (.transportError msg)).1.account.deposits
        = w.account.deposits ++ [d1] ++ [d2] ∧
      d1.dtype = .debit ∧ d1.amount = memberPrice p 0 ∧
      d2.dtype = .credit ∧ d2.amount = memberPrice p 0 := by
  have hlt : ¬ w.account.balance < memberPrice p 0 := not_lt.mpr hbal
  refine ⟨?_, ?_, ?_, ?_⟩
  · simp [memberCreateOrder, hsku, hdest, havail, deductBalance, hlt, topupBalance]
  · simp [memberCreateOrder, hsku, hdest, havail, deductBalance, hlt]
  · simp [memberCreateOrder, hsku, hdest, havail, deductBalance, hlt]
    rw [updateStatus_append_fresh w.orders _ .failed (by simpa using hfresh)]
    exact ⟨_, rfl, rfl, rfl, rfl, rfl⟩
  · refine ⟨⟨memberPrice p 0, .debit, "Pembelian " ++ p.productName ++ " - " ++ dest,
      refId, "system"⟩, ⟨memberPrice p 0, .credit, "Refund Gagal Transaksi " ++ refId,
      "", "SYSTEM"⟩, ?_, rfl, rfl, rfl, rfl⟩
    simp [memberCreateOrder, hsku, hdest, havail, deductBalance, hlt, topupBalance]

/-- Witness for `member_transport_error_refund`: a member with balance 5000
whose 5000-priced purchase hits a provider transport error ends with balance
5000 and a failed order. -/
theorem member_transport_error_refund_witness :
    (memberCreateOrder ⟨memberAccount0, []⟩ 7 "ml5" "12345" (some memberProduct)
        "INV-2" "MO3" false (.transportError "timeout")).1.account.balance
      = memberAccount0.balance ∧
    (memberCreateOrder ⟨memberAccount0, []⟩ 7 "ml5" "12345" (some memberProduct)
        "INV-2" "MO3" false (.transportError "timeout")).2 = 500 := by
  have h := member_transport_error_refund ⟨memberAccount0, []⟩ 7 "ml5" "12345"
    memberProduct "INV-2" "MO3" "timeout" (by decide) (by decide) rfl
    (by simp [memberPrice, memberProduct, memberAccount0]) (by simp)
  exact ⟨h.1, h.2.1⟩

end Govershop
